import Mathlib

/-!
Shallow embedding of the aivocado plant-monitoring repository.

Numeric sensor values (Python floats) are modelled as rationals; the
timestamp (a Python `datetime`) is modelled as an abstract instant `ℕ`.
Randomness (`random.uniform`) and external I/O outcomes (HTTP calls,
the LLM API call) are modelled as explicit oracle arguments.
-/

/-- Embeds `sensors.SensorReading`: container for all sensor readings at a
point in time. -/
structure SensorReading where
  timestamp : ℕ
  temperature_c : ℚ
  humidity_percent : ℚ
  co2_ppm : ℚ
  light_lux : ℚ
deriving DecidableEq, Repr

/-- Embeds `display.OPTIMAL_RANGES`: optimal ranges for avocado plant
growth, keyed by metric name as in the Python dict. -/
def OPTIMAL_RANGES : String → ℚ × ℚ
  | "temperature" => (18, 26)
  | "humidity" => (50, 70)
  | "co2" => (400, 800)
  | "light" => (2000, 10000)
  | _ => (0, 0)

/-- Embeds `display.get_status_indicator`: status indicator based on
whether value is in optimal range. -/
def get_status_indicator (value : ℚ) (optimal_range : ℚ × ℚ) : String :=
  let low := optimal_range.1
  let high := optimal_range.2
  if low ≤ value ∧ value ≤ high then
    "[OK]"
  else if value < low then
    "[LOW]"
  else
    "[HIGH]"

/-- Embeds `display.create_bar`: visual bar representation of a value.
Python computes `int(normalized * width)`; truncation toward zero equals
floor here because the clamp makes `normalized` non-negative. -/
def create_bar (value min_val max_val : ℚ) (width : ℕ) : String :=
  let normalized := (value - min_val) / (max_val - min_val)
  let normalized := max 0 (min 1 normalized)
  let filled := (Rat.floor (normalized * width)).toNat
  "[" ++ ⟨List.replicate filled '#'⟩ ++ ⟨List.replicate (width - filled) '-'⟩ ++ "]"

/-- The filled-character count of `create_bar`, factored out of its body. -/
def barFilled (value min_val max_val : ℚ) (width : ℕ) : ℕ :=
  let normalized := (value - min_val) / (max_val - min_val)
  let normalized := max 0 (min 1 normalized)
  (Rat.floor (normalized * width)).toNat

/-- Embeds the issue-accumulation loop of
`ai_advisor.AIAdvisor._get_fallback_recommendation` (the sequential
appends to the `issues` list, in source order). -/
def fallbackIssues (reading : SensorReading) : List String :=
  let issues : List String := []
  let temp_low := (OPTIMAL_RANGES "temperature").1
  let temp_high := (OPTIMAL_RANGES "temperature").2
  let issues :=
    if reading.temperature_c < temp_low then
      issues ++ ["Temperature too low - consider warming the area"]
    else if reading.temperature_c > temp_high then
      issues ++ ["Temperature too high - improve ventilation"]
    else issues
  let hum_low := (OPTIMAL_RANGES "humidity").1
  let hum_high := (OPTIMAL_RANGES "humidity").2
  let issues :=
    if reading.humidity_percent < hum_low then
      issues ++ ["Humidity too low - mist leaves or use humidifier"]
    else if reading.humidity_percent > hum_high then
      issues ++ ["Humidity too high - improve air circulation"]
    else issues
  let co2_low := (OPTIMAL_RANGES "co2").1
  let co2_high := (OPTIMAL_RANGES "co2").2
  let issues :=
    if reading.co2_ppm < co2_low then
      issues ++ ["CO2 below normal - ensure adequate ventilation"]
    else if reading.co2_ppm > co2_high then
      issues ++ ["CO2 elevated - increase fresh air exchange"]
    else issues
  let light_low := (OPTIMAL_RANGES "light").1
  let light_high := (OPTIMAL_RANGES "light").2
  let issues :=
    if reading.light_lux < light_low then
      issues ++ ["Light insufficient - move closer to window or add grow light"]
    else if reading.light_lux > light_high then
      issues ++ ["Light too intense - add shade or move plant"]
    else issues
  issues

/-- Embeds `ai_advisor.AIAdvisor._get_fallback_recommendation`: basic
recommendation without AI when API is unavailable. -/
def _get_fallback_recommendation (reading : SensorReading) : String :=
  let issues := fallbackIssues reading
  if issues = [] then
    "All conditions optimal! Your avocado plant is in a great environment."
  else
    String.intercalate " | " (issues.take 2)

/-- Spec classification outcome (spec section 4.1): one of BELOW, WITHIN,
ABOVE. -/
inductive Status where
  | BELOW
  | WITHIN
  | ABOVE
deriving DecidableEq, Repr

/-- Modelled from the spec (section 4.1 Range Classifier): WITHIN when
low ≤ value ≤ high (boundaries inclusive), BELOW when value < low, ABOVE
when value > high. Used to state the refinement claim about the fallback
advisor; the source-level classifier is `get_status_indicator`. -/
def classify (value low high : ℚ) : Status :=
  if low ≤ value ∧ value ≤ high then .WITHIN
  else if value < low then .BELOW
  else .ABOVE

/-- Modelled from the spec (section 4.3 step 2): the issue contribution
of one metric — one fixed metric-and-direction-specific sentence when the
metric is BELOW or ABOVE, nothing when WITHIN. -/
def metricIssue (st : Status) (lowMsg highMsg : String) : List String :=
  match st with
  | .BELOW => [lowMsg]
  | .ABOVE => [highMsg]
  | .WITHIN => []

/-- Modelled from the spec (section 4.3 steps 1-2): the ordered issue
list, metrics inspected in the fixed order temperature, humidity, CO2,
light. -/
def spec_issue_list (r : SensorReading) : List String :=
  metricIssue (classify r.temperature_c 18 26)
    "Temperature too low - consider warming the area"
    "Temperature too high - improve ventilation" ++
  metricIssue (classify r.humidity_percent 50 70)
    "Humidity too low - mist leaves or use humidifier"
    "Humidity too high - improve air circulation" ++
  metricIssue (classify r.co2_ppm 400 800)
    "CO2 below normal - ensure adequate ventilation"
    "CO2 elevated - increase fresh air exchange" ++
  metricIssue (classify r.light_lux 2000 10000)
    "Light insufficient - move closer to window or add grow light"
    "Light too intense - add shade or move plant"

/-- Modelled from the spec (section 4.3 steps 3-4): all-clear message
when no issues, otherwise the first two issues joined with the
separator. -/
def spec_fallback (r : SensorReading) : String :=
  if spec_issue_list r = [] then
    "All conditions optimal! Your avocado plant is in a great environment."
  else
    String.intercalate " | " ((spec_issue_list r).take 2)

/-- Embeds the advisory word-wrap loop of `display.display_reading`:
`words` is what remains of `ai_recommendation.split()`, `line` the line
being accumulated (starting as the two-space indent), `printed` the lines
already printed. The final `if` embeds the trailing
`if line.strip(): print(line)`. -/
def wrapLoop : List String → String → List String → List String
  | [], line, printed =>
      if line.trim ≠ "" then printed ++ [line] else printed
  | word :: rest, line, printed =>
      if line.length + word.length + 1 > 58 then
        wrapLoop rest ("  " ++ word) (printed ++ [line])
      else
        wrapLoop rest (if line ≠ "  " then line ++ (" " ++ word) else line ++ word) printed

/-- The advisory lines printed by `display.display_reading` for an
advisory text whose whitespace tokenization (Python `str.split()`) is
`words`. -/
def display_advisory_lines (words : List String) : List String :=
  wrapLoop words "  " []

/-- Word-length predicate used by the amended C7 claim. -/
def wordLenOk (w : String) : Bool := w.length ≤ 56

/-- Line-length predicate of the C7 claim (indent included). -/
def lineLenOk (l : String) : Bool := l.length ≤ 58

/-- A 57-character word; the wrap loop cannot split it, so the emitted
line carrying it is 59 characters long. -/
def longWord : String := ⟨List.replicate 57 'a'⟩

/-- Embeds the per-metric uniform noise drawn by `random.uniform` inside
`sensors.MockSensors.read`, one sample per metric. -/
structure MockNoise where
  temp : ℚ
  humidity : ℚ
  co2 : ℚ
  light : ℚ

/-- Embeds `sensors.MockSensors`: the fixed base values set in
`__init__`. -/
structure MockSensors where
  _base_temp : ℚ
  _base_humidity : ℚ
  _base_co2 : ℚ
  _base_light : ℚ

/-- Embeds `MockSensors.__init__`. -/
def MockSensors.init : MockSensors :=
  ⟨22, 65, 450, 5000⟩

/-- Embeds `sensors.MockSensors.read`; `now` stands for `datetime.now()`
and `noise` for the four `random.uniform` draws. -/
def MockSensors.read (self : MockSensors) (now : ℕ) (noise : MockNoise) : SensorReading :=
  { timestamp := now
    temperature_c := self._base_temp + noise.temp
    humidity_percent := max 0 (min 100 (self._base_humidity + noise.humidity))
    co2_ppm := max 300 (self._base_co2 + noise.co2)
    light_lux := max 0 (self._base_light + noise.light) }

/-- Outcome of the external Claude API call inside
`AIAdvisor.get_recommendation`, modelled as an oracle value: either the
response text or a raised exception (any kind). -/
inductive ApiCallOutcome where
  | ok (text : String)
  | raised (message : String)

/-- Embeds `ai_advisor.AIAdvisor`: the `_client` field is present exactly
when an API key was resolved in `__init__`. -/
structure AIAdvisor where
  _client : Option Unit

/-- Embeds `ai_advisor.AIAdvisor.get_recommendation`: with no client,
return the fallback; otherwise try the API call and on any exception
return the fallback. -/
def AIAdvisor.get_recommendation (self : AIAdvisor) (reading : SensorReading)
    (call : ApiCallOutcome) : String :=
  match self._client with
  | none => _get_fallback_recommendation reading
  | some _ =>
    match call with
    | .ok text => text
    | .raised _ => _get_fallback_recommendation reading

/-- Outcome of one `httpx.post` call, modelled as an oracle value: either
a response with a status code or a raised transport exception. -/
inductive HttpOutcome where
  | response (status_code : ℕ)
  | raised (message : String)

/-- Embeds `api_client.APIClient`: resolved endpoint and credential
configuration (`None` models an unset environment variable). -/
structure APIClient where
  _base_url : Option String
  _api_key : Option String

/-- Python truthiness of an optional string: `None` and `""` are falsy. -/
def strTruthy : Option String → Bool
  | none => false
  | some s => !s.isEmpty

/-- Embeds `self._enabled = bool(self._base_url and self._api_key)` from
`APIClient.__init__`. -/
def APIClient.enabled (self : APIClient) : Bool :=
  strTruthy self._base_url && strTruthy self._api_key

/-- Embeds `api_client.APIClient.push_reading`: return False when
disabled; otherwise the result of the POST — status 200 means success,
any exception means False. -/
def APIClient.push_reading (self : APIClient) (_reading : SensorReading)
    (net : HttpOutcome) : Bool :=
  if !self.enabled then false
  else
    match net with
    | .response code => code == 200
    | .raised _ => false

/-- Embeds `api_client.APIClient.push_analysis`: same guard and
try/except shape as `push_reading`. -/
def APIClient.push_analysis (self : APIClient) (_reading : SensorReading)
    (_recommendation : String) (net : HttpOutcome) : Bool :=
  if !self.enabled then false
  else
    match net with
    | .response code => code == 200
    | .raised _ => false

/-- Embeds `api_client.APIClient.push_alert`: same guard and try/except
shape, with an optional reading in the payload. -/
def APIClient.push_alert (self : APIClient) (_alert_type : String)
    (_message : String) (_reading : Option SensorReading) (net : HttpOutcome) : Bool :=
  if !self.enabled then false
  else
    match net with
    | .response code => code == 200
    | .raised _ => false

/-- Step from `Rat.floor` (the executable floor in `create_bar`) to the
`Int.floor` of the `FloorRing` instance on `ℚ`. -/
lemma ratFloor_eq (q : ℚ) : Rat.floor q = ⌊q⌋ :=
  (Rat.floor_def' q).trans Rat.floor_def.symm

/-- Unfolded form of `get_status_indicator` with the lets resolved. -/
lemma get_status_indicator_eq (v low high : ℚ) :
    get_status_indicator v (low, high) =
      if low ≤ v ∧ v ≤ high then "[OK]"
      else if v < low then "[LOW]" else "[HIGH]" := rfl

/-- C2: for every value v and range (low, high) with low < high, the
classifier returns "[OK]" exactly when low ≤ v ≤ high (boundaries
inclusive), "[LOW]" exactly when v < low, "[HIGH]" exactly when v > high;
in particular both boundaries classify as "[OK]". -/
theorem C2_range_classifier (v low high : ℚ) (h : low < high) :
    (get_status_indicator v (low, high) = "[OK]" ↔ low ≤ v ∧ v ≤ high) ∧
    (get_status_indicator v (low, high) = "[LOW]" ↔ v < low) ∧
    (get_status_indicator v (low, high) = "[HIGH]" ↔ high < v) ∧
    get_status_indicator low (low, high) = "[OK]" ∧
    get_status_indicator high (low, high) = "[OK]" := by
  refine ⟨?_, ?_, ?_, ?_, ?_⟩
  · rw [get_status_indicator_eq]
    split_ifs with h1 h2
    · exact iff_of_true rfl h1
    · exact iff_of_false (by decide) h1
    · exact iff_of_false (by decide) h1
  · rw [get_status_indicator_eq]
    split_ifs with h1 h2
    · exact iff_of_false (by decide) (not_lt.mpr h1.1)
    · exact iff_of_true rfl h2
    · exact iff_of_false (by decide) h2
  · rw [get_status_indicator_eq]
    split_ifs with h1 h2
    · exact iff_of_false (by decide) (not_lt.mpr h1.2)
    · exact iff_of_false (by decide) (by linarith)
    · refine iff_of_true rfl ?_
      rcases not_and_or.mp h1 with hbad | hbad
      · exact absurd (not_lt.mp h2) hbad
      · exact not_le.mp hbad
  · rw [get_status_indicator_eq, if_pos ⟨le_refl low, le_of_lt h⟩]
  · rw [get_status_indicator_eq, if_pos ⟨le_of_lt h, le_refl high⟩]

/-- Witness for C2 at the concrete range (0, 2) and value 1. -/
theorem C2_range_classifier_witness :
    (0 : ℚ) < 2 ∧
    ((get_status_indicator 1 ((0 : ℚ), (2 : ℚ)) = "[OK]" ↔ (0 : ℚ) ≤ 1 ∧ (1 : ℚ) ≤ 2) ∧
     (get_status_indicator 1 ((0 : ℚ), (2 : ℚ)) = "[LOW]" ↔ (1 : ℚ) < 0) ∧
     (get_status_indicator 1 ((0 : ℚ), (2 : ℚ)) = "[HIGH]" ↔ (2 : ℚ) < 1) ∧
     get_status_indicator 0 ((0 : ℚ), (2 : ℚ)) = "[OK]" ∧
     get_status_indicator 2 ((0 : ℚ), (2 : ℚ)) = "[OK]") :=
  ⟨by decide, C2_range_classifier 1 0 2 (by decide)⟩

/-- C3: the end-to-end scenario Reading(temp 35, humidity 20, CO2 1200,
light 500) against the standard ranges yields status tokens [HIGH],
[LOW], [HIGH], [LOW] in metric order, and the fallback advisory is
exactly the high-temperature sentence followed by the low-humidity
sentence, joined by the separator. -/
theorem C3_end_to_end :
    get_status_indicator 35 (OPTIMAL_RANGES "temperature") = "[HIGH]" ∧
    get_status_indicator 20 (OPTIMAL_RANGES "humidity") = "[LOW]" ∧
    get_status_indicator 1200 (OPTIMAL_RANGES "co2") = "[HIGH]" ∧
    get_status_indicator 500 (OPTIMAL_RANGES "light") = "[LOW]" ∧
    _get_fallback_recommendation ⟨0, 35, 20, 1200, 500⟩ =
      "Temperature too high - improve ventilation | Humidity too low - mist leaves or use humidifier" := by
  refine ⟨?_, ?_, ?_, ?_, ?_⟩
  · norm_num [get_status_indicator, OPTIMAL_RANGES]
  · norm_num [get_status_indicator, OPTIMAL_RANGES]
  · norm_num [get_status_indicator, OPTIMAL_RANGES]
  · norm_num [get_status_indicator, OPTIMAL_RANGES]
  · norm_num [_get_fallback_recommendation, fallbackIssues, OPTIMAL_RANGES]
    decide

/-- C4: whatever values the per-metric noise takes, the mock reading
satisfies humidity in [0, 100], CO2 at least 300, light at least 0, and
temperature is exactly the 22.0 baseline plus its noise term. -/
theorem C4_mock_clamps (now : ℕ) (noise : MockNoise) :
    0 ≤ (MockSensors.init.read now noise).humidity_percent ∧
    (MockSensors.init.read now noise).humidity_percent ≤ 100 ∧
    300 ≤ (MockSensors.init.read now noise).co2_ppm ∧
    0 ≤ (MockSensors.init.read now noise).light_lux ∧
    (MockSensors.init.read now noise).temperature_c = 22 + noise.temp := by
  unfold MockSensors.read MockSensors.init
  exact ⟨le_max_left _ _,
    max_le (by norm_num) (min_le_left _ _),
    le_max_left _ _,
    le_max_left _ _,
    rfl⟩

/-- C8: the advisor substitutes the rule-based fallback both when no API
client is configured and when the API call raises, for every reading and
every call outcome; `get_recommendation` is a total function, so it never
propagates an error. -/
theorem C8_recommendation_fallback (adv : AIAdvisor) (r : SensorReading)
    (call : ApiCallOutcome) (msg : String) :
    (adv._client = none → adv.get_recommendation r call = _get_fallback_recommendation r) ∧
    adv.get_recommendation r (.raised msg) = _get_fallback_recommendation r := by
  cases hcl : adv._client with
  | none => exact ⟨fun _ => by simp [AIAdvisor.get_recommendation, hcl],
      by simp [AIAdvisor.get_recommendation, hcl]⟩
  | some u => exact ⟨fun hc => Option.noConfusion hc,
      by simp [AIAdvisor.get_recommendation, hcl]⟩

/-- Witness for C8 at a concrete unconfigured advisor and reading. -/
theorem C8_recommendation_fallback_witness :
    ((AIAdvisor.mk none)._client = none →
      (AIAdvisor.mk none).get_recommendation ⟨0, 22, 65, 450, 5000⟩ (.ok "text") =
        _get_fallback_recommendation ⟨0, 22, 65, 450, 5000⟩) ∧
    (AIAdvisor.mk none).get_recommendation ⟨0, 22, 65, 450, 5000⟩ (.raised "boom") =
      _get_fallback_recommendation ⟨0, 22, 65, 450, 5000⟩ :=
  C8_recommendation_fallback (AIAdvisor.mk none) ⟨0, 22, 65, 450, 5000⟩ (.ok "text") "boom"

/-- C9: with endpoint or credential configuration absent the client is
disabled and every push operation returns False whatever the transport
oracle would do (so no I/O outcome is ever consulted); and for every
client — enabled ones included — a raised transport exception yields
False rather than propagating. -/
theorem C9_push_guards (c : APIClient) (r : SensorReading)
    (rec alert_t msg em : String) (optr : Option SensorReading) (net : HttpOutcome) :
    (c._base_url = none ∨ c._api_key = none →
      c.enabled = false ∧
      c.push_reading r net = false ∧
      c.push_analysis r rec net = false ∧
      c.push_alert alert_t msg optr net = false) ∧
    c.push_reading r (.raised em) = false ∧
    c.push_analysis r rec (.raised em) = false ∧
    c.push_alert alert_t msg optr (.raised em) = false := by
  constructor
  · intro h
    have he : c.enabled = false := by
      rcases h with h | h <;> simp [APIClient.enabled, h, strTruthy]
    refine ⟨he, ?_, ?_, ?_⟩ <;>
      simp [APIClient.push_reading, APIClient.push_analysis, APIClient.push_alert, he]
  · refine ⟨?_, ?_, ?_⟩ <;>
      simp only [APIClient.push_reading, APIClient.push_analysis, APIClient.push_alert] <;>
      split <;> rfl

/-- Witness for C9 at two concrete clients: an unconfigured one (the
disabled guard fires, the premise is discharged) and a fully configured
one (the raised-transport conjuncts exercise the enabled branch). -/
theorem C9_push_guards_witness :
    ((((APIClient.mk none none)._base_url = none ∨ (APIClient.mk none none)._api_key = none) →
      (APIClient.mk none none).enabled = false ∧
      (APIClient.mk none none).push_reading ⟨0, 22, 65, 450, 5000⟩ (.response 200) = false ∧
      (APIClient.mk none none).push_analysis ⟨0, 22, 65, 450, 5000⟩ "rec" (.response 200) = false ∧
      (APIClient.mk none none).push_alert "temperature_high" "above range" none
        (.response 200) = false) ∧
     (APIClient.mk none none).push_reading ⟨0, 22, 65, 450, 5000⟩ (.raised "boom") = false ∧
     (APIClient.mk none none).push_analysis ⟨0, 22, 65, 450, 5000⟩ "rec" (.raised "boom") = false ∧
     (APIClient.mk none none).push_alert "temperature_high" "above range" none
       (.raised "boom") = false) ∧
    ((((APIClient.mk (some "https://api.example") (some "key"))._base_url = none ∨
       (APIClient.mk (some "https://api.example") (some "key"))._api_key = none) →
      (APIClient.mk (some "https://api.example") (some "key")).enabled = false ∧
      (APIClient.mk (some "https://api.example") (some "key")).push_reading
        ⟨0, 22, 65, 450, 5000⟩ (.response 200) = false ∧
      (APIClient.mk (some "https://api.example") (some "key")).push_analysis
        ⟨0, 22, 65, 450, 5000⟩ "rec" (.response 200) = false ∧
      (APIClient.mk (some "https://api.example") (some "key")).push_alert
        "temperature_high" "above range" none (.response 200) = false) ∧
     (APIClient.mk (some "https://api.example") (some "key")).push_reading
       ⟨0, 22, 65, 450, 5000⟩ (.raised "boom") = false ∧
     (APIClient.mk (some "https://api.example") (some "key")).push_analysis
       ⟨0, 22, 65, 450, 5000⟩ "rec" (.raised "boom") = false ∧
     (APIClient.mk (some "https://api.example") (some "key")).push_alert
       "temperature_high" "above range" none (.raised "boom") = false) :=
  ⟨C9_push_guards (APIClient.mk none none) ⟨0, 22, 65, 450, 5000⟩
      "rec" "temperature_high" "above range" "boom" none (.response 200),
   C9_push_guards (APIClient.mk (some "https://api.example") (some "key"))
      ⟨0, 22, 65, 450, 5000⟩ "rec" "temperature_high" "above range" "boom" none (.response 200)⟩

/-- C10: the fallback advisor is deterministic — its output depends only
on the four metric values (and the constant range table), not on the
timestamp or any hidden state. -/
theorem C10_fallback_deterministic (r1 r2 : SensorReading)
    (h1 : r1.temperature_c = r2.temperature_c)
    (h2 : r1.humidity_percent = r2.humidity_percent)
    (h3 : r1.co2_ppm = r2.co2_ppm)
    (h4 : r1.light_lux = r2.light_lux) :
    _get_fallback_recommendation r1 = _get_fallback_recommendation r2 := by
  unfold _get_fallback_recommendation fallbackIssues
  rw [h1, h2, h3, h4]

/-- Witness for C10 at two concrete readings that differ only in their
timestamps. -/
theorem C10_fallback_deterministic_witness :
    _get_fallback_recommendation ⟨0, 35, 20, 1200, 500⟩ =
      _get_fallback_recommendation ⟨999, 35, 20, 1200, 500⟩ :=
  C10_fallback_deterministic ⟨0, 35, 20, 1200, 500⟩ ⟨999, 35, 20, 1200, 500⟩ rfl rfl rfl rfl

/-- C6: a reading with all four metrics within their optimal ranges
(boundaries inclusive) yields the single fixed all-clear message, and the
lowercased message contains the word optimal. -/
theorem C6_all_clear (r : SensorReading)
    (ht1 : 18 ≤ r.temperature_c) (ht2 : r.temperature_c ≤ 26)
    (hh1 : 50 ≤ r.humidity_percent) (hh2 : r.humidity_percent ≤ 70)
    (hc1 : 400 ≤ r.co2_ppm) (hc2 : r.co2_ppm ≤ 800)
    (hl1 : 2000 ≤ r.light_lux) (hl2 : r.light_lux ≤ 10000) :
    _get_fallback_recommendation r =
      "All conditions optimal! Your avocado plant is in a great environment." ∧
    "optimal".data <:+: ((_get_fallback_recommendation r).data.map Char.toLower) := by
  have heq : _get_fallback_recommendation r =
      "All conditions optimal! Your avocado plant is in a great environment." := by
    unfold _get_fallback_recommendation fallbackIssues
    simp only [OPTIMAL_RANGES]
    rw [if_neg (not_lt.mpr ht1), if_neg (not_lt.mpr ht2),
      if_neg (not_lt.mpr hh1), if_neg (not_lt.mpr hh2),
      if_neg (not_lt.mpr hc1), if_neg (not_lt.mpr hc2),
      if_neg (not_lt.mpr hl1), if_neg (not_lt.mpr hl2),
      if_pos rfl]
  exact ⟨heq, by rw [heq]; decide⟩

/-- Witness for C6 at a concrete all-within reading. -/
theorem C6_all_clear_witness :
    ((18 : ℚ) ≤ (⟨0, 22, 65, 450, 5000⟩ : SensorReading).temperature_c) ∧
    (_get_fallback_recommendation ⟨0, 22, 65, 450, 5000⟩ =
      "All conditions optimal! Your avocado plant is in a great environment." ∧
    "optimal".data <:+:
      ((_get_fallback_recommendation ⟨0, 22, 65, 450, 5000⟩).data.map Char.toLower)) :=
  ⟨by decide, C6_all_clear ⟨0, 22, 65, 450, 5000⟩ (by decide) (by decide) (by decide)
    (by decide) (by decide) (by decide) (by decide) (by decide)⟩

/-- Factor a sequential conditional append out of the accumulated list. -/
lemma ite_append_factor (c d : Prop) [Decidable c] [Decidable d] (X x y : List String) :
    (if c then X ++ x else if d then X ++ y else X) =
      X ++ (if c then x else if d then y else []) := by
  split_ifs <;> simp

/-- One metric of the source if-chain equals the spec classifier form. -/
lemma issue_branch_eq (v lo hi : ℚ) (x y : String) :
    (if v < lo then [x] else if v > hi then [y] else ([] : List String)) =
      metricIssue (classify v lo hi) x y := by
  by_cases h1 : v < lo
  · have hw : ¬(lo ≤ v ∧ v ≤ hi) := fun hcon => absurd hcon.1 (not_le.mpr h1)
    simp [classify, metricIssue, h1, hw]
  · by_cases h2 : v > hi
    · have hw : ¬(lo ≤ v ∧ v ≤ hi) := fun hcon => absurd hcon.2 (not_le.mpr h2)
      simp [classify, metricIssue, h1, h2, hw]
    · have hw : lo ≤ v ∧ v ≤ hi := ⟨not_lt.mp h1, not_lt.mp h2⟩
      simp [classify, metricIssue, h1, h2, hw]

/-- The source issue accumulation computes exactly the spec issue list,
in the fixed metric order. -/
lemma fallbackIssues_eq_spec (r : SensorReading) :
    fallbackIssues r = spec_issue_list r := by
  unfold fallbackIssues spec_issue_list
  simp only [OPTIMAL_RANGES]
  rw [ite_append_factor, ite_append_factor, ite_append_factor, ite_append_factor]
  rw [issue_branch_eq, issue_branch_eq, issue_branch_eq, issue_branch_eq]
  simp [List.append_assoc]

/-- A member of a metric issue contribution is one of its two fixed
sentences. -/
lemma metricIssue_mem (st : Status) (x y s : String) (h : s ∈ metricIssue st x y) :
    s = x ∨ s = y := by
  cases st
  · left; simpa [metricIssue] using h
  · exact absurd h (by simp [metricIssue])
  · right; simpa [metricIssue] using h

/-- Every sentence the spec issue list can contain is free of the
separator character. -/
lemma spec_issue_no_pipe (r : SensorReading) (s : String) (hs : s ∈ spec_issue_list r) :
    s.data.count '|' = 0 := by
  unfold spec_issue_list at hs
  simp only [List.mem_append, or_assoc] at hs
  rcases hs with h | h | h | h <;>
    rcases metricIssue_mem _ _ _ _ h with rfl | rfl <;> decide

/-- C1: the fallback advisor refines the spec algorithm (fixed metric
order, one fixed sentence per out-of-range metric, first two issues
joined by the separator), the issue text used has at most two sentences,
and the returned text contains at most one separator character. -/
theorem C1_fallback_shape (r : SensorReading) :
    _get_fallback_recommendation r = spec_fallback r ∧
    ((spec_issue_list r).take 2).length ≤ 2 ∧
    (_get_fallback_recommendation r).data.count '|' ≤ 1 := by
  have heq : _get_fallback_recommendation r = spec_fallback r := by
    unfold _get_fallback_recommendation spec_fallback
    rw [fallbackIssues_eq_spec]
  refine ⟨heq, ?_, ?_⟩
  · rw [List.length_take]; exact min_le_left _ _
  · rw [heq]
    unfold spec_fallback
    split_ifs with hemp
    · decide
    · rcases hl : spec_issue_list r with _ | ⟨x, _ | ⟨y, rest⟩⟩
      · exact absurd hl hemp
      · have hx := spec_issue_no_pipe r x (by rw [hl]; simp)
        rw [show ([x] : List String).take 2 = [x] from rfl,
          show String.intercalate " | " [x] = x from rfl, hx]
        norm_num
      · have hx := spec_issue_no_pipe r x (by rw [hl]; simp)
        have hy := spec_issue_no_pipe r y (by rw [hl]; simp)
        rw [show (x :: y :: rest).take 2 = [x, y] from rfl,
          show String.intercalate " | " [x, y] = x ++ " | " ++ y from rfl]
        rw [String.data_append, String.data_append]
        rw [List.count_append, List.count_append, hx, hy]
        decide

/-- The bar string in terms of its factored filled count. -/
lemma create_bar_eq (v a b : ℚ) (W : ℕ) :
    create_bar v a b W =
      "[" ++ (⟨List.replicate (barFilled v a b W) '#'⟩ : String) ++
        (⟨List.replicate (W - barFilled v a b W) '-'⟩ : String) ++ "]" := rfl

/-- The filled count never exceeds the bar width. -/
lemma barFilled_le (v a b : ℚ) (W : ℕ) : barFilled v a b W ≤ W := by
  simp only [barFilled]
  have h1 : max 0 (min 1 ((v - a) / (b - a))) ≤ 1 :=
    max_le (by norm_num) (min_le_left _ _)
  have h2 : max 0 (min 1 ((v - a) / (b - a))) * (W : ℚ) ≤ (W : ℚ) := by
    calc max 0 (min 1 ((v - a) / (b - a))) * (W : ℚ)
        ≤ 1 * (W : ℚ) := mul_le_mul_of_nonneg_right h1 (by positivity)
      _ = (W : ℚ) := one_mul _
  rw [ratFloor_eq]
  have h3 := Int.floor_le_floor h2
  rw [Int.floor_natCast] at h3
  exact Int.toNat_le.mpr h3

/-- The number of fill characters in the bar is its filled count. -/
lemma count_hash (v a b : ℚ) (W : ℕ) :
    (create_bar v a b W).data.count '#' = barFilled v a b W := by
  rw [create_bar_eq]
  simp [String.data_append, List.count_append, List.count_replicate]

/-- The number of unfilled characters in the bar is width minus the
filled count. -/
lemma count_dash (v a b : ℚ) (W : ℕ) :
    (create_bar v a b W).data.count '-' = W - barFilled v a b W := by
  rw [create_bar_eq]
  simp [String.data_append, List.count_append, List.count_replicate]

/-- At the lower display bound the bar has zero filled characters. -/
lemma barFilled_min (a b : ℚ) (W : ℕ) : barFilled a a b W = 0 := by
  simp only [barFilled]
  rw [sub_self, zero_div, show max (0 : ℚ) (min 1 0) = 0 by norm_num,
    zero_mul, ratFloor_eq]
  simp

/-- At the upper display bound the bar is entirely filled. -/
lemma barFilled_max (a b : ℚ) (W : ℕ) (hab : a < b) : barFilled b a b W = W := by
  simp only [barFilled]
  rw [div_self (sub_ne_zero.mpr (ne_of_gt hab)),
    show max (0 : ℚ) (min 1 1) = 1 by norm_num, one_mul, ratFloor_eq,
    Int.floor_natCast]
  omega

/-- At the exact midpoint with width 10 the bar has five filled
characters. -/
lemma barFilled_mid (a b : ℚ) (hab : a < b) : barFilled ((a + b) / 2) a b 10 = 5 := by
  simp only [barFilled]
  have hne : b - a ≠ 0 := sub_ne_zero.mpr (ne_of_gt hab)
  have h : ((a + b) / 2 - a) / (b - a) = 1 / 2 := by
    field_simp
    ring
  rw [h, show max (0 : ℚ) (min 1 (1 / 2)) = 1 / 2 by norm_num,
    show (1 / 2 : ℚ) * ((10 : ℕ) : ℚ) = ((5 : ℤ) : ℚ) by norm_num,
    ratFloor_eq, Int.floor_intCast]
  rfl

/-- Below the lower display bound the filled count clamps to the value
at that bound. -/
lemma barFilled_clamp_low (v a b : ℚ) (W : ℕ) (hab : a < b) (hv : v ≤ a) :
    barFilled v a b W = barFilled a a b W := by
  rw [barFilled_min]
  simp only [barFilled]
  have hbpos : (0 : ℚ) < b - a := sub_pos.mpr hab
  have hnp : (v - a) / (b - a) ≤ 0 :=
    div_nonpos_of_nonpos_of_nonneg (sub_nonpos.mpr hv) hbpos.le
  rw [min_eq_right (le_trans hnp zero_le_one), max_eq_left hnp, zero_mul,
    ratFloor_eq]
  simp

/-- Above the upper display bound the filled count clamps to the value
at that bound. -/
lemma barFilled_clamp_high (v a b : ℚ) (W : ℕ) (hab : a < b) (hv : b ≤ v) :
    barFilled v a b W = barFilled b a b W := by
  rw [barFilled_max _ _ _ hab]
  simp only [barFilled]
  have hbpos : (0 : ℚ) < b - a := sub_pos.mpr hab
  have h1 : (1 : ℚ) ≤ (v - a) / (b - a) := (one_le_div hbpos).mpr (by linarith)
  rw [min_eq_left h1, show max (0 : ℚ) 1 = 1 by norm_num, one_mul,
    ratFloor_eq, Int.floor_natCast]
  omega

/-- Bars with equal filled counts (same width) are equal strings. -/
lemma create_bar_congr (v w a b : ℚ) (W : ℕ)
    (h : barFilled v a b W = barFilled w a b W) :
    create_bar v a b W = create_bar w a b W := by
  rw [create_bar_eq, create_bar_eq, h]

/-- C5: the bar gauge fills exactly floor(clamped-normalized times width)
characters; it is all unfilled at the lower bound, all filled at the
upper bound, exactly half filled at the midpoint with width 10, and
out-of-domain inputs produce the same bar as the nearest bound. -/
theorem C5_bar_gauge (a b v : ℚ) (W : ℕ) (hab : a < b) (hW : 0 < W) :
    (create_bar a a b W).data.count '#' = 0 ∧
    (create_bar b a b W).data.count '#' = W ∧
    (create_bar ((a + b) / 2) a b 10).data.count '#' = 5 ∧
    (create_bar ((a + b) / 2) a b 10).data.count '-' = 5 ∧
    (v ≤ a → create_bar v a b W = create_bar a a b W) ∧
    (b ≤ v → create_bar v a b W = create_bar b a b W) ∧
    (create_bar v a b W).data.count '#' =
      (Rat.floor (max 0 (min 1 ((v - a) / (b - a))) * W)).toNat := by
  refine ⟨?_, ?_, ?_, ?_, ?_, ?_, ?_⟩
  · rw [count_hash, barFilled_min]
  · rw [count_hash, barFilled_max _ _ _ hab]
  · rw [count_hash, barFilled_mid _ _ hab]
  · rw [count_dash, barFilled_mid _ _ hab]
  · exact fun hv => create_bar_congr _ _ _ _ _ (barFilled_clamp_low v a b W hab hv)
  · exact fun hv => create_bar_congr _ _ _ _ _ (barFilled_clamp_high v a b W hab hv)
  · rw [count_hash]; rfl

/-- Witness for C5 at the concrete domain (0, 10), width 4 and the
out-of-domain value 20. -/
theorem C5_bar_gauge_witness :
    ((0 : ℚ) < 10) ∧ (0 < 4) ∧
    ((create_bar 0 0 10 4).data.count '#' = 0 ∧
     (create_bar 10 0 10 4).data.count '#' = 4 ∧
     (create_bar ((0 + 10) / 2) 0 10 10).data.count '#' = 5 ∧
     (create_bar ((0 + 10) / 2) 0 10 10).data.count '-' = 5 ∧
     ((20 : ℚ) ≤ 0 → create_bar 20 0 10 4 = create_bar 0 0 10 4) ∧
     ((10 : ℚ) ≤ 20 → create_bar 20 0 10 4 = create_bar 10 0 10 4) ∧
     (create_bar 20 0 10 4).data.count '#' =
       (Rat.floor (max 0 (min 1 ((20 - 0) / (10 - 0))) * (4 : ℕ))).toNat) :=
  ⟨by decide, by decide, C5_bar_gauge 0 10 20 4 (by decide) (by decide)⟩

/-- Loop invariant of the advisory word wrap: if every remaining word is
at most 56 characters, the accumulated line and every printed line are at
most 58 characters, then every line the loop ever prints is at most 58
characters. -/
lemma wrapLoop_bound (words : List String) (line : String) (printed : List String)
    (hw : ∀ w ∈ words, w.length ≤ 56) (hl : line.length ≤ 58)
    (hp : ∀ l ∈ printed, l.length ≤ 58) :
    ∀ l ∈ wrapLoop words line printed, l.length ≤ 58 := by
  induction words generalizing line printed with
  | nil =>
    intro l hlmem
    simp only [wrapLoop] at hlmem
    split at hlmem
    · rcases List.mem_append.mp hlmem with h | h
      · exact hp l h
      · rw [List.mem_singleton.mp h]; exact hl
    · exact hp l hlmem
  | cons w rest ih =>
    intro l hlmem
    simp only [wrapLoop] at hlmem
    split at hlmem
    · refine ih _ _ (fun x hx => hw x (List.mem_cons_of_mem _ hx)) ?_ ?_ l hlmem
      · rw [String.length_append]
        have h56 := hw w (List.mem_cons_self _ _)
        have h2 : ("  " : String).length = 2 := rfl
        omega
      · intro x hx
        rcases List.mem_append.mp hx with h | h
        · exact hp x h
        · rw [List.mem_singleton.mp h]; exact hl
    · rename_i hguard
      have hg : line.length + w.length + 1 ≤ 58 := by omega
      refine ih _ _ (fun x hx => hw x (List.mem_cons_of_mem _ hx)) ?_ hp l hlmem
      split
      · rw [String.length_append, String.length_append]
        have h1 : (" " : String).length = 1 := rfl
        omega
      · rw [String.length_append]
        omega

/-- C7 (amended): whenever every word of the advisory text is at most 56
characters long, every advisory line the renderer emits (two-space indent
included) has length at most 58. -/
theorem C7_wrap_width (words : List String)
    (hw : words.all wordLenOk = true) :
    (display_advisory_lines words).all lineLenOk = true := by
  rw [List.all_eq_true] at hw
  rw [List.all_eq_true]
  intro l hlmem
  unfold display_advisory_lines at hlmem
  have hb := wrapLoop_bound words "  " []
    (fun x hx => by simpa [wordLenOk] using hw x hx)
    (by decide)
    (fun x hx => absurd hx (List.not_mem_nil x))
    l hlmem
  simpa [lineLenOk] using hb

/-- Witness for the amended C7 claim on a concrete three-word advisory. -/
theorem C7_wrap_width_witness :
    (["Temperature", "too", "high"].all wordLenOk = true) ∧
    ((display_advisory_lines ["Temperature", "too", "high"]).all lineLenOk = true) :=
  ⟨by decide, C7_wrap_width ["Temperature", "too", "high"] (by decide)⟩

/-- C7 as stated is false: for the advisory text made of a 57-character
word followed by a short word, the renderer emits the line consisting of
the indent plus the long word, whose length is 59 > 58. -/
theorem C7_counterexample :
    ("  " ++ longWord) ∈ display_advisory_lines [longWord, "x"] ∧
    58 < ("  " ++ longWord).length := by
  constructor
  · unfold display_advisory_lines
    simp only [wrapLoop]
    have h1 : ("  " : String).length + longWord.length + 1 > 58 := by decide
    rw [if_pos h1]
    have h2 : ("  " ++ longWord).length + ("x" : String).length + 1 > 58 := by decide
    rw [if_pos h2]
    split_ifs <;> simp
  · decide
